import Mathlib

/-!
Verification of the donation / payment-reconciliation subsystem of the
Amaanitvam Foundation site (src/core/views.py, src/core/models.py,
src/core/migrations/0008_add_donor_email_fields.py, src/core/email_service.py).

Shallow embedding conventions:
* Python `float` arithmetic is modelled exactly over `ℚ`; every concrete
  rational used in a counterexample below is exactly representable in binary
  floating point (0.5, 500.5) or produces the same truncation outcome in
  IEEE-754 double precision as in exact arithmetic (10.999 × 100 evaluates to
  1099.9000000000001 in doubles, and both truncate to 1099).
* Python `int(x)` on a float is truncation toward zero: `pyInt` below.
* The Django ORM store is a `List` of rows; `Donation.objects.get(...)` is
  `List.find?` on the (unique) gateway order-id column, and `row.save()` is a
  keyed in-place replacement (`updateByOrderId`).
* Calls to external collaborators (the Razorpay client, the email service) are
  passed in as explicit results or recorded in an output trace: the signature
  check's outcome is a `SigResult` argument, `razorpay_client.order.create` and
  `razorpay_client.payment.fetch` are `Except`-valued arguments, and the list
  `receiptsSent` records every invocation of
  `email_service.send_donation_receipt` that the handler performs (the source
  of `payment_callback` contains no such call, so the trace it produces is
  empty on every path).
* Exceptions caught by the views' `try/except` blocks are routed exactly as in
  the source; an exception raised by a collaborator inside the guarded region
  is the `SigResult.exn` / `Except.error` case of the corresponding argument.
-/

namespace Amaanitvam

/-- Python `int()` applied to a (float modelled as an exact) rational:
truncation toward zero. -/
def pyInt (q : ℚ) : ℤ := if 0 ≤ q then ⌊q⌋ else ⌈q⌉

/-- The `status` choices of the migrated `Donation` model
(migration 0008: pending, success, failed). -/
inductive DonationStatus
  | pending
  | success
  | failed
deriving DecidableEq, Repr

/-- The migrated `Donation` row (models as of migration
`0008_add_donor_email_fields`): donor fields, decimal `amount`,
unique `razorpay_order_id`, `status`, and the `transaction_id` /
`razorpay_signature` columns that are blank until verification
(`none` models the blank/unset value). `id` is the primary key. -/
structure Donation where
  id : Nat
  razorpay_order_id : String
  donor_name : String
  donor_email : String
  donor_phone : String
  amount : ℚ
  status : DonationStatus
  transaction_id : Option String
  razorpay_signature : Option String
deriving DecidableEq, Repr

/-- The legacy `Donation` row as declared in src/core/models.py
(`name`, `amount`, `payment_id`, unique `order_id`, `paid`); this is the
schema the `verify_payment` view reads and writes. The `amount` CharField
holds a numeral, modelled as the rational `float(amount)` parses to. -/
structure LegacyDonation where
  name : String
  amount : ℚ
  payment_id : String
  order_id : String
  paid : Bool
deriving DecidableEq, Repr

/-- Outcome of `razorpay_client.utility.verify_payment_signature`:
it returns (ok), raises `SignatureVerificationError`, or raises some
other exception (e.g. on malformed parameters). -/
inductive SigResult
  | ok
  | sigFail
  | exn (msg : String)
deriving DecidableEq, Repr

/-- The three JSON fields `payment_callback` / `verify_payment` read from the
request body. -/
structure CallbackBody where
  razorpay_order_id : String
  razorpay_payment_id : String
  razorpay_signature : String
deriving DecidableEq, Repr

/-- Lookup `Donation.objects.get(razorpay_order_id=oid)` on the migrated
store (the column is unique, so `find?` returns the row or the query
raises `DoesNotExist`, modelled by `none`). -/
def findByOrderId (db : List Donation) (oid : String) : Option Donation :=
  db.find? (fun d => d.razorpay_order_id == oid)

/-- Save `row.save()` on the migrated store: replace the row keyed by its
unique `razorpay_order_id`. -/
def updateByOrderId (db : List Donation) (upd : Donation) : List Donation :=
  db.map (fun e => if e.razorpay_order_id == upd.razorpay_order_id then upd else e)

/-- Lookup `Donation.objects.get(order_id=oid)` on the legacy store. -/
def findLegacyByOrderId (db : List LegacyDonation) (oid : String) :
    Option LegacyDonation :=
  db.find? (fun d => d.order_id == oid)

/-- Save `row.save()` on the legacy store: replace the row keyed by its
unique `order_id`. -/
def updateLegacyByOrderId (db : List LegacyDonation) (upd : LegacyDonation) :
    List LegacyDonation :=
  db.map (fun e => if e.order_id == upd.order_id then upd else e)

/-- The JSON responses `payment_callback` can produce: `status` is
`success` (with `donation_id`), `failed` (with an `error` string), or
`error` (with an `error` string). -/
inductive CallbackResponse
  | success (donation_id : Nat)
  | failed (error : String)
  | error (error : String)
deriving DecidableEq, Repr

/-- The `status` field of a `payment_callback` JSON response. -/
def CallbackResponse.statusField : CallbackResponse → String
  | .success _ => "success"
  | .failed _ => "failed"
  | .error _ => "error"

/-- Result of one `payment_callback` request: the store afterwards, the JSON
response, and the trace of donation ids passed to
`email_service.send_donation_receipt` during the call. -/
structure CallbackResult where
  db : List Donation
  response : CallbackResponse
  receiptsSent : List Nat
deriving DecidableEq, Repr

/-- src/core/views.py `payment_callback` (lines 206-249). Arguments:
`sig` is the outcome of `razorpay_client.utility.verify_payment_signature`
on the body's triple; `db` the store; `methodPost` whether the request
method is POST; `body` the parsed JSON body (`none` models a body on which
`json.loads` raises, which the outer `except Exception` turns into an
error response). The source never imports or calls
`email_service.send_donation_receipt`, so `receiptsSent` is `[]` on every
path. -/
def payment_callback (sig : SigResult) (db : List Donation)
    (methodPost : Bool) (body : Option CallbackBody) : CallbackResult :=
  if methodPost then
    match body with
    | none => ⟨db, .error "invalid JSON body", []⟩
    | some data =>
      match sig with
      | .ok =>
        match findByOrderId db data.razorpay_order_id with
        | some donation =>
          let donation' : Donation :=
            { donation with
              transaction_id := some data.razorpay_payment_id,
              razorpay_signature := some data.razorpay_signature,
              status := .success }
          ⟨updateByOrderId db donation', .success donation.id, []⟩
        | none => ⟨db, .error "Donation matching query does not exist.", []⟩
      | .sigFail =>
        match findByOrderId db data.razorpay_order_id with
        | some donation =>
          ⟨updateByOrderId db { donation with status := .failed },
            .failed "Signature verification failed", []⟩
        | none => ⟨db, .error "Donation matching query does not exist.", []⟩
      | .exn msg => ⟨db, .error msg, []⟩
  else ⟨db, .error "Invalid request method", []⟩

/-- The responses the `donate` view can produce: the 400 "Invalid Amount"
response, the rendered checkout page (carrying the gateway order id, the
minor-unit amount, the display amount and the new donation id), the
donate page re-rendered with a gateway error, or the plain GET form. -/
inductive DonateResponse
  | invalidAmount
  | checkout (order_id : String) (amount_paise : ℤ) (amount_display : ℚ)
      (donation_id : Nat)
  | errorPage (msg : String)
  | donateForm
deriving DecidableEq, Repr

/-- Result of one `donate` request: the store afterwards, the response, and
the trace of minor-unit amounts for which `razorpay_client.order.create`
was invoked. -/
structure DonateResult where
  db : List Donation
  response : DonateResponse
  gatewayCalls : List ℤ
deriving DecidableEq, Repr

/-- src/core/views.py `donate` (lines 139-203). `gatewayCreate` is
`razorpay_client.order.create`, returning the gateway order id or raising
(`Except.error`); `amount` is the result of `float()` on the submitted
amount string (`none` models a `ValueError`/`TypeError`). Validation
rejects when `int(float(amount)) < 1`; on the valid path
`amount_paise = int(float(amount) * 100)`, the gateway is called, and only
on gateway success is a new pending row appended (primary key modelled as
the next list index). -/
def donate (gatewayCreate : ℤ → Except String String) (db : List Donation)
    (methodPost : Bool) (donor_name donor_email donor_phone : String)
    (amount : Option ℚ) : DonateResult :=
  if methodPost then
    match amount with
    | none => ⟨db, .invalidAmount, []⟩
    | some a =>
      if pyInt a < 1 then ⟨db, .invalidAmount, []⟩
      else
        let amount_paise := pyInt (a * 100)
        match gatewayCreate amount_paise with
        | .error e => ⟨db, .errorPage e, [amount_paise]⟩
        | .ok oid =>
          let donation : Donation :=
            { id := db.length
              razorpay_order_id := oid
              donor_name := donor_name
              donor_email := donor_email
              donor_phone := donor_phone
              amount := a
              status := .pending
              transaction_id := none
              razorpay_signature := none }
          ⟨db ++ [donation], .checkout oid amount_paise a donation.id,
            [amount_paise]⟩
  else ⟨db, .donateForm, []⟩

/-- The responses the `verify_payment` view can produce: `verified` is the
`{'status': 'success'}` JSON; `sigFailure`, `amountMismatch`,
`orderNotFound` are the three 400 failure JSONs (with error strings
"Signature verification failed", "Amount mismatch. Payment rejected for
security.", "Order not found" respectively); `internalFailure` is the 500
catch-all; `noResponse` models the fall-through on a non-POST request (the
view returns `None`); `unhandled` models the uncaught exception when
`json.loads` raises outside the `try`. -/
inductive VerifyResponse
  | verified
  | sigFailure
  | amountMismatch
  | orderNotFound
  | internalFailure (msg : String)
  | noResponse
  | unhandled
deriving DecidableEq, Repr

/-- Result of one `verify_payment` request: the legacy store afterwards and
the response. -/
structure VerifyResult where
  db : List LegacyDonation
  response : VerifyResponse
deriving DecidableEq, Repr

/-- src/core/views.py `verify_payment` (lines 299-342). `sig` is the
signature-check outcome, `fetchPayment` the minor-unit `amount` field of
`razorpay_client.payment.fetch` (or the exception it raises). After the
signature check and the payment fetch, the stored order is looked up by
`order_id`; the expected amount is computed as
`int(float(donation.amount)) * 100` — note the truncation of the rupee
amount BEFORE scaling — and compared with the fetched amount; on mismatch
the view returns the amount-mismatch 400 without saving; otherwise it sets
`payment_id` and `paid = True` and saves. -/
def verify_payment (sig : SigResult) (fetchPayment : Except String ℤ)
    (db : List LegacyDonation) (methodPost : Bool)
    (body : Option CallbackBody) : VerifyResult :=
  if methodPost then
    match body with
    | none => ⟨db, .unhandled⟩
    | some data =>
      match sig with
      | .ok =>
        match fetchPayment with
        | .error e => ⟨db, .internalFailure e⟩
        | .ok amount_paid_paise =>
          match findLegacyByOrderId db data.razorpay_order_id with
          | none => ⟨db, .orderNotFound⟩
          | some donation =>
            let expected_amount_paise := pyInt donation.amount * 100
            if amount_paid_paise ≠ expected_amount_paise then
              ⟨db, .amountMismatch⟩
            else
              ⟨updateLegacyByOrderId db
                { donation with
                  payment_id := data.razorpay_payment_id
                  paid := true },
                .verified⟩
      | .sigFail => ⟨db, .sigFailure⟩
      | .exn msg => ⟨db, .internalFailure msg⟩
  else ⟨db, .noResponse⟩



/-- The row `donate` appends on its success path. -/
def newDonation (db : List Donation) (n e p : String) (q : ℚ) (oid : String) :
    Donation :=
  { id := db.length
    razorpay_order_id := oid
    donor_name := n
    donor_email := e
    donor_phone := p
    amount := q
    status := .pending
    transaction_id := none
    razorpay_signature := none }

/-- The row `payment_callback` writes on its success path. -/
def successUpdate (d : Donation) (body : CallbackBody) : Donation :=
  { d with
    transaction_id := some body.razorpay_payment_id
    razorpay_signature := some body.razorpay_signature
    status := .success }



/-- A pending order fixture on the migrated schema (₹500, order id "order_1"). -/
def d0 : Donation :=
  { id := 0
    razorpay_order_id := "order_1"
    donor_name := "Asha"
    donor_email := "asha@example.com"
    donor_phone := "9999999999"
    amount := 500
    status := .pending
    transaction_id := none
    razorpay_signature := none }

/-- Callback body fixture matching `d0`. -/
def b0 : CallbackBody :=
  { razorpay_order_id := "order_1"
    razorpay_payment_id := "pay_1"
    razorpay_signature := "sig_1" }

/-- The `d0` order after a successful verification with `b0`. -/
def d0success : Donation :=
  { d0 with
    transaction_id := some "pay_1"
    razorpay_signature := some "sig_1"
    status := .success }

/-- A second callback body for the same order with fresh payment id and
signature. -/
def b2 : CallbackBody :=
  { razorpay_order_id := "order_1"
    razorpay_payment_id := "pay_2"
    razorpay_signature := "sig_2" }

/-- A legacy-schema order fixture whose stored amount ₹500.50 is not a whole
number of rupees. -/
def legacy500 : LegacyDonation :=
  { name := "Donor"
    amount := 1001/2
    payment_id := ""
    order_id := "order_7"
    paid := false }

/-- Callback body fixture matching `legacy500`. -/
def body7 : CallbackBody :=
  { razorpay_order_id := "order_7"
    razorpay_payment_id := "pay_7"
    razorpay_signature := "sig_7" }

theorem pyInt_intCast (n : ℤ) : pyInt ((n : ℚ)) = n := by
  unfold pyInt
  split <;> simp

theorem pyInt_nonpos {q : ℚ} (h : q ≤ 0) : pyInt q ≤ 0 := by
  unfold pyInt
  split
  · next h0 =>
    have hq : q = 0 := le_antisymm h h0
    simp [hq]
  · exact Int.ceil_le.mpr (by exact_mod_cast h)

theorem donate_post_none (g : ℤ → Except String String) (db : List Donation)
    (n e p : String) :
    donate g db true n e p none = ⟨db, .invalidAmount, []⟩ := by
  simp [donate]

theorem donate_post_small (g : ℤ → Except String String) (db : List Donation)
    (n e p : String) (q : ℚ) (h : pyInt q < 1) :
    donate g db true n e p (some q) = ⟨db, .invalidAmount, []⟩ := by
  simp [donate, h]

theorem donate_post_valid (g : ℤ → Except String String) (db : List Donation)
    (n e p : String) (q : ℚ) (h : 1 ≤ pyInt q) (oid : String)
    (hg : g (pyInt (q * 100)) = .ok oid) :
    donate g db true n e p (some q) =
      ⟨db ++ [newDonation db n e p q oid],
        .checkout oid (pyInt (q * 100)) q db.length, [pyInt (q * 100)]⟩ := by
  simp [donate, not_lt.mpr h, hg, newDonation]

theorem donate_post_gateway_error (g : ℤ → Except String String)
    (db : List Donation) (n e p : String) (q : ℚ) (h : 1 ≤ pyInt q)
    (msg : String) (hg : g (pyInt (q * 100)) = .error msg) :
    donate g db true n e p (some q) =
      ⟨db, .errorPage msg, [pyInt (q * 100)]⟩ := by
  simp [donate, not_lt.mpr h, hg]

theorem findByOrderId_some {db : List Donation} {oid : String} {d : Donation}
    (hf : findByOrderId db oid = some d) : d.razorpay_order_id = oid := by
  have h1 := List.find?_some hf
  simpa using h1

theorem findByOrderId_update (d upd : Donation) (oid : String)
    (hu : upd.razorpay_order_id = d.razorpay_order_id)
    (hd : d.razorpay_order_id = oid) :
    ∀ db : List Donation, findByOrderId db oid = some d →
      findByOrderId (updateByOrderId db upd) oid = some upd := by
  intro db
  induction db with
  | nil => intro hf; simp [findByOrderId] at hf
  | cons e tl ih =>
    intro hf
    by_cases he : e.razorpay_order_id = oid
    · have hfe : findByOrderId (e :: tl) oid = some e := by
        simp [findByOrderId, he]
      obtain rfl : e = d := by
        rw [hfe] at hf
        exact Option.some.inj hf
      simp [updateByOrderId, findByOrderId, hu, hd, he]
    · have hf' : findByOrderId tl oid = some d := by
        simpa [findByOrderId, he] using hf
      have hne : e.razorpay_order_id ≠ upd.razorpay_order_id := by
        rw [hu, hd]
        exact he
      have := ih hf'
      simpa [updateByOrderId, findByOrderId, hne, he] using this

theorem callback_found_ok {db : List Donation} {body : CallbackBody}
    {d : Donation} (hf : findByOrderId db body.razorpay_order_id = some d) :
    payment_callback .ok db true (some body) =
      ⟨updateByOrderId db (successUpdate d body), .success d.id, []⟩ := by
  simp [payment_callback, hf, successUpdate]

theorem callback_found_sigFail {db : List Donation} {body : CallbackBody}
    {d : Donation} (hf : findByOrderId db body.razorpay_order_id = some d) :
    payment_callback .sigFail db true (some body) =
      ⟨updateByOrderId db { d with status := .failed },
        .failed "Signature verification failed", []⟩ := by
  simp [payment_callback, hf]

theorem callback_notFound_ok {db : List Donation} {body : CallbackBody}
    (hf : findByOrderId db body.razorpay_order_id = none) :
    payment_callback .ok db true (some body) =
      ⟨db, .error "Donation matching query does not exist.", []⟩ := by
  simp [payment_callback, hf]

theorem callback_notFound_sigFail {db : List Donation} {body : CallbackBody}
    (hf : findByOrderId db body.razorpay_order_id = none) :
    payment_callback .sigFail db true (some body) =
      ⟨db, .error "Donation matching query does not exist.", []⟩ := by
  simp [payment_callback, hf]


theorem verify_found_mismatch {db : List LegacyDonation} {body : CallbackBody}
    {d : LegacyDonation} {a : ℤ}
    (hf : findLegacyByOrderId db body.razorpay_order_id = some d)
    (hne : a ≠ pyInt d.amount * 100) :
    verify_payment .ok (.ok a) db true (some body) = ⟨db, .amountMismatch⟩ := by
  simp [verify_payment, hf, hne]

theorem verify_found_match {db : List LegacyDonation} {body : CallbackBody}
    {d : LegacyDonation} {a : ℤ}
    (hf : findLegacyByOrderId db body.razorpay_order_id = some d)
    (heq : a = pyInt d.amount * 100) :
    verify_payment .ok (.ok a) db true (some body) =
      ⟨updateLegacyByOrderId db
        { d with paid := true, payment_id := body.razorpay_payment_id },
        .verified⟩ := by
  simp [verify_payment, hf, heq]

theorem verify_notFound {db : List LegacyDonation} {body : CallbackBody} {a : ℤ}
    (hf : findLegacyByOrderId db body.razorpay_order_id = none) :
    verify_payment .ok (.ok a) db true (some body) = ⟨db, .orderNotFound⟩ := by
  simp [verify_payment, hf]

theorem pyInt_scaled_ne {q : ℚ} (hq : ∀ n : ℤ, q ≠ (n : ℚ)) {a : ℤ}
    (ha : (a : ℚ) = q * 100) : a ≠ pyInt q * 100 := by
  intro h
  apply hq (pyInt q)
  have hc : (a : ℚ) = ((pyInt q * 100 : ℤ) : ℚ) := by exact_mod_cast congrArg (fun z : ℤ => (z : ℚ)) h
  rw [ha] at hc
  push_cast at hc
  exact mul_right_cancel₀ (by norm_num : (100 : ℚ) ≠ 0) hc

theorem pyInt_roundtrip {q : ℚ} (h : ∃ n : ℤ, q * 100 = (n : ℚ)) :
    ((pyInt (q * 100) : ℤ) : ℚ) / 100 = q := by
  obtain ⟨n, hn⟩ := h
  rw [hn, pyInt_intCast, ← hn]
  field_simp

/-- C5 counterexample: the amount 0.5 parses as a positive number, yet the
`donate` view rejects it (int(float("0.5")) = 0 < 1) and creates no order,
refuting the claimed "if and only if the submitted amount parses as a
positive number". -/
theorem c5_counterexample :
    (0 : ℚ) < 1/2 ∧
    donate (fun _ => Except.ok "order_A") [] true "Asha" "asha@example.com"
      "9999999999" (some (1/2)) = ⟨[], .invalidAmount, []⟩ := by
  constructor
  · norm_num
  · exact donate_post_small _ [] "Asha" "asha@example.com" "9999999999"
      (1/2) (by rw [pyInt]; norm_num)

/-- C5 amended: the submission creates exactly one Pending order iff the
amount parses and its Python-int truncation is at least 1 (and the gateway
call succeeds); any unparseable amount, any amount that truncates below 1
(which includes every amount ≤ 0), is rejected with a client error, zero
rows created and no gateway call made. -/
theorem c5_amended (g : ℤ → Except String String) (db : List Donation)
    (n e p : String) :
    donate g db true n e p none = ⟨db, .invalidAmount, []⟩
    ∧ (∀ q : ℚ, q ≤ 0 →
        donate g db true n e p (some q) = ⟨db, .invalidAmount, []⟩)
    ∧ (∀ q : ℚ, pyInt q < 1 →
        donate g db true n e p (some q) = ⟨db, .invalidAmount, []⟩)
    ∧ (∀ q : ℚ, 1 ≤ pyInt q → ∀ oid : String,
        g (pyInt (q * 100)) = .ok oid →
        donate g db true n e p (some q) =
          ⟨db ++ [newDonation db n e p q oid],
            .checkout oid (pyInt (q * 100)) q db.length, [pyInt (q * 100)]⟩
        ∧ (newDonation db n e p q oid).status = .pending) := by
  refine ⟨donate_post_none g db n e p, ?_, ?_, ?_⟩
  · intro q hq
    exact donate_post_small g db n e p q
      (lt_of_le_of_lt (pyInt_nonpos hq) (by norm_num))
  · intro q hq
    exact donate_post_small g db n e p q hq
  · intro q hq oid hg
    exact ⟨donate_post_valid g db n e p q hq oid hg, rfl⟩

theorem c5_amended_witness :
    donate (fun _ => Except.ok "order_A") [] true "Asha" "asha@example.com"
      "9999999999" (some (-5)) = ⟨[], .invalidAmount, []⟩
    ∧ donate (fun _ => Except.ok "order_A") [] true "Asha" "asha@example.com"
      "9999999999" (some 500) =
      ⟨[newDonation [] "Asha" "asha@example.com" "9999999999" 500 "order_A"],
        .checkout "order_A" (pyInt (500 * 100)) 500 0,
        [pyInt (500 * 100)]⟩ := by
  refine ⟨(c5_amended _ [] "Asha" "asha@example.com" "9999999999").2.1 (-5)
    (by norm_num), ?_⟩
  have h := (c5_amended (fun _ => Except.ok "order_A") [] "Asha"
    "asha@example.com" "9999999999").2.2.2 500 (by rw [pyInt]; norm_num)
    "order_A" rfl
  simpa using h.1

/-- C4 counterexample: for the valid submitted amount 10.999 the view computes
minor units by truncation, 1099, although rounding amount × 100 gives 1100,
and the round trip 1099 / 100 does not recover the stored amount. -/
theorem c4_counterexample :
    (donate (fun _ => Except.ok "order_B") [] true "Ravi" "ravi@example.com"
        "8888888888" (some (10999/1000))).response =
      .checkout "order_B" 1099 (10999/1000) 0
    ∧ round ((10999/1000 : ℚ) * 100) = 1100
    ∧ ((1099 : ℚ) / 100 ≠ 10999/1000) := by
  have hp : pyInt ((10999/1000 : ℚ) * 100) = 1099 := by rw [pyInt]; norm_num
  refine ⟨?_, ?_, by norm_num⟩
  · have h := donate_post_valid (fun _ => Except.ok "order_B") []
      "Ravi" "ravi@example.com" "8888888888" (10999/1000)
      (by rw [pyInt]; norm_num) "order_B" rfl
    rw [h, hp]
    simp
  · rw [round_eq]
    norm_num

/-- C4 amended: the flow converts a valid amount to minor units by truncating
amount × 100 toward zero (Python `int`, no rounding); the round trip
amount_minor_units / 100 = stored amount holds whenever amount × 100 is an
integer — in particular for amounts with at most two decimal places — but
not in general. -/
theorem c4_amended (g : ℤ → Except String String) (db : List Donation)
    (n e p : String) (q : ℚ) (hq : 1 ≤ pyInt q) (oid : String)
    (hg : g (pyInt (q * 100)) = .ok oid) :
    donate g db true n e p (some q) =
      ⟨db ++ [newDonation db n e p q oid],
        .checkout oid (pyInt (q * 100)) q db.length, [pyInt (q * 100)]⟩
    ∧ (newDonation db n e p q oid).amount = q
    ∧ ((∃ m : ℤ, q * 100 = (m : ℚ)) →
        ((pyInt (q * 100) : ℤ) : ℚ) / 100 = q) := by
  exact ⟨donate_post_valid g db n e p q hq oid hg, rfl, fun h => pyInt_roundtrip h⟩

theorem c4_amended_witness :
    donate (fun _ => Except.ok "order_B") [] true "Ravi" "ravi@example.com"
      "8888888888" (some (1001/2)) =
      ⟨[newDonation [] "Ravi" "ravi@example.com" "8888888888" (1001/2)
          "order_B"],
        .checkout "order_B" (pyInt ((1001/2) * 100)) (1001/2) 0,
        [pyInt ((1001/2) * 100)]⟩
    ∧ ((pyInt (((1001:ℚ)/2) * 100) : ℤ) : ℚ) / 100 = 1001/2 := by
  have h := c4_amended (fun _ => Except.ok "order_B") [] "Ravi"
    "ravi@example.com" "8888888888" (1001/2) (by rw [pyInt]; norm_num)
    "order_B" rfl
  refine ⟨by simpa using h.1, h.2.2 ⟨50050, by norm_num⟩⟩

/-- C6: when the gateway order-creation call fails, the error is surfaced on
the rendered error page and the store is unchanged — no local row is
created on that path. -/
theorem c6_gateway_failure_no_record (g : ℤ → Except String String)
    (db : List Donation) (n e p : String) (q : ℚ) (msg : String)
    (hq : 1 ≤ pyInt q) (hg : g (pyInt (q * 100)) = .error msg) :
    donate g db true n e p (some q) =
      ⟨db, .errorPage msg, [pyInt (q * 100)]⟩ := by
  exact donate_post_gateway_error g db n e p q hq msg hg

theorem c6_witness :
    donate (fun _ => Except.error "gateway unreachable") [] true "Asha"
      "asha@example.com" "9999999999" (some 500) =
      ⟨[], .errorPage "gateway unreachable", [pyInt (500 * 100)]⟩ := by
  exact c6_gateway_failure_no_record _ [] "Asha" "asha@example.com"
    "9999999999" 500 "gateway unreachable" (by rw [pyInt]; norm_num) rfl


/-- C9: the amount-checking endpoint computes the expected amount as
int(float(stored amount)) * 100, truncating fractional rupees before
scaling, so for every stored amount that is not a whole number of rupees a
gateway-reported amount exactly equal to the stored amount in minor units
fails the comparison and the payment is rejected as an amount mismatch,
with the store unchanged. -/
theorem c9_truncated_expected_amount (db : List LegacyDonation)
    (d : LegacyDonation) (body : CallbackBody) (a : ℤ)
    (hf : findLegacyByOrderId db body.razorpay_order_id = some d)
    (hfrac : ∀ m : ℤ, d.amount ≠ (m : ℚ))
    (ha : (a : ℚ) = d.amount * 100) :
    verify_payment .ok (.ok a) db true (some body) = ⟨db, .amountMismatch⟩ := by
  exact verify_found_mismatch hf (pyInt_scaled_ne hfrac ha)

theorem c9_witness :
    verify_payment .ok (.ok 50050) [legacy500] true (some body7) =
      ⟨[legacy500], .amountMismatch⟩ := by
  refine c9_truncated_expected_amount [legacy500] legacy500 body7 50050 rfl
    ?_ (by norm_num [legacy500])
  intro m h
  rw [legacy500] at h
  have h2 : (1001 : ℚ) = 2 * m := by
    field_simp at h
    linarith
  have h3 : (1001 : ℤ) = 2 * m := by exact_mod_cast h2
  omega

/-- C1: evaluation of the code at the failing input. The stored order amount
is ₹500.50, the gateway reports 50000 paise (₹500.00), which differs from
the stored amount in minor units (50050), and the signature check passes;
yet `verify_payment` computes the expected amount as
int(float(500.50)) * 100 = 50000, accepts the payment, returns success and
marks the order paid — contradicting the claim that such a call can never
succeed. -/
theorem c1_mismatch_accepted_evaluation :
    verify_payment .ok (.ok 50000) [legacy500] true (some body7) =
      ⟨[{ legacy500 with paid := true, payment_id := "pay_7" }], .verified⟩
    ∧ ((50000 : ℚ) ≠ legacy500.amount * 100) := by
  constructor
  · have hpy : pyInt ((1001:ℚ)/2) = 500 := by rw [pyInt]; norm_num
    have h := @verify_found_match [legacy500] body7 legacy500 50000 rfl
      (by rw [legacy500]; rw [hpy]; norm_num)
    rw [h]
    simp [updateLegacyByOrderId, legacy500, body7]
  · rw [legacy500]
    norm_num

/-- C7: a verification call whose order id matches no stored record is
reported as a distinct not-found error on both endpoints — `verify_payment`
answers the 400 "Order not found" JSON, `payment_callback` answers a
status-"error" JSON carrying the `DoesNotExist` message — and the store is
unchanged in every case. -/
theorem c7_order_not_found (db : List Donation) (ldb : List LegacyDonation)
    (body : CallbackBody) (a : ℤ)
    (hf : findByOrderId db body.razorpay_order_id = none)
    (hlf : findLegacyByOrderId ldb body.razorpay_order_id = none) :
    payment_callback .ok db true (some body) =
      ⟨db, .error "Donation matching query does not exist.", []⟩
    ∧ payment_callback .sigFail db true (some body) =
      ⟨db, .error "Donation matching query does not exist.", []⟩
    ∧ verify_payment .ok (.ok a) ldb true (some body) =
      ⟨ldb, .orderNotFound⟩ := by
  exact ⟨callback_notFound_ok hf, callback_notFound_sigFail hf,
    verify_notFound hlf⟩

theorem c7_witness :
    payment_callback .ok [] true (some b0) =
      ⟨[], .error "Donation matching query does not exist.", []⟩
    ∧ verify_payment .ok (.ok 0) [] true (some b0) =
      ⟨[], .orderNotFound⟩ := by
  have h := c7_order_not_found [] [] b0 0 rfl rfl
  exact ⟨h.1, h.2.2⟩

/-- C8: on an existing order whose signature check fails, `payment_callback`
deterministically sets that order's status to Failed, answers the
status-"failed" JSON, and leaves the transaction id and signature columns
unpopulated. -/
theorem c8_signature_failure_failed (db : List Donation) (d : Donation)
    (body : CallbackBody)
    (hf : findByOrderId db body.razorpay_order_id = some d)
    (ht : d.transaction_id = none) (hs : d.razorpay_signature = none) :
    payment_callback .sigFail db true (some body) =
      ⟨updateByOrderId db { d with status := .failed },
        .failed "Signature verification failed", []⟩
    ∧ findByOrderId (updateByOrderId db { d with status := .failed })
        body.razorpay_order_id = some { d with status := .failed }
    ∧ ({ d with status := DonationStatus.failed }).transaction_id = none
    ∧ ({ d with status := DonationStatus.failed }).razorpay_signature
        = none := by
  refine ⟨callback_found_sigFail hf, ?_, ht, hs⟩
  exact findByOrderId_update d { d with status := .failed }
    body.razorpay_order_id rfl (findByOrderId_some hf) db hf

theorem c8_witness :
    payment_callback .sigFail [d0] true (some b0) =
      ⟨updateByOrderId [d0] { d0 with status := .failed },
        .failed "Signature verification failed", []⟩
    ∧ findByOrderId (updateByOrderId [d0] { d0 with status := .failed })
        b0.razorpay_order_id = some { d0 with status := .failed } := by
  have h := c8_signature_failure_failed [d0] d0 b0 rfl rfl rfl
  exact ⟨h.1, h.2.1⟩

/-- C2 counterexample: a call in which every check passes (the response is
the success JSON for donation 0) triggers no receipt: the handler's trace
of `send_donation_receipt` invocations is empty, because the view never
calls the email service. -/
theorem c2_counterexample :
    (payment_callback .ok [d0] true (some b0)).response =
      .success 0
    ∧ (payment_callback .ok [d0] true (some b0)).receiptsSent = [] := by
  decide

/-- C2 amended: on an existing order with all checks passing,
`payment_callback` sets the order's status to Success, populates its
transaction id and signature from the callback values, and answers the
success JSON with the donation id — but it does not invoke the receipt
notifier (`send_donation_receipt` has no call site in the view). -/
theorem c2_amended (db : List Donation) (d : Donation) (body : CallbackBody)
    (hf : findByOrderId db body.razorpay_order_id = some d) :
    payment_callback .ok db true (some body) =
      ⟨updateByOrderId db (successUpdate d body), .success d.id, []⟩
    ∧ findByOrderId (updateByOrderId db (successUpdate d body))
        body.razorpay_order_id = some (successUpdate d body)
    ∧ (successUpdate d body).status = .success
    ∧ (successUpdate d body).transaction_id = some body.razorpay_payment_id
    ∧ (successUpdate d body).razorpay_signature
        = some body.razorpay_signature
    ∧ (payment_callback .ok db true (some body)).receiptsSent = [] := by
  refine ⟨callback_found_ok hf, ?_, rfl, rfl, rfl, ?_⟩
  · exact findByOrderId_update d (successUpdate d body)
      body.razorpay_order_id rfl (findByOrderId_some hf) db hf
  · rw [callback_found_ok hf]

theorem c2_amended_witness :
    payment_callback .ok [d0] true (some b0) =
      ⟨updateByOrderId [d0] (successUpdate d0 b0), .success 0, []⟩
    ∧ (successUpdate d0 b0).status = .success := by
  have h := c2_amended [d0] d0 b0 rfl
  exact ⟨h.1, h.2.2.1⟩

/-- C3 counterexample: the order `d0success` is already in Success with
transaction id "pay_1"; re-invoking verification with a fresh callback
overwrites the transaction id and signature on a valid signature, and
flips the status to Failed on an invalid one — Success is not terminal and
the fields do not stay unchanged. -/
theorem c3_counterexample :
    (payment_callback .ok [d0success] true (some b2)).db =
      [{ d0success with
          transaction_id := some "pay_2"
          razorpay_signature := some "sig_2" }]
    ∧ some "pay_2" ≠ d0success.transaction_id
    ∧ (payment_callback .sigFail [d0success] true (some b2)).db =
      [{ d0success with status := .failed }]
    ∧ DonationStatus.failed ≠ DonationStatus.success := by
  decide

/-- C3 amended: orders created by the donation flow start at Pending, and
verification writes only Success or Failed; but neither outcome is
terminal: re-invoking verification on an already-Success order overwrites
its transaction id and signature from the new callback on a valid
signature and sets its status to Failed on signature failure. The receipt
notifier is never triggered on any invocation (the view never calls it). -/
theorem c3_amended (db : List Donation) (d : Donation) (body : CallbackBody)
    (hf : findByOrderId db body.razorpay_order_id = some d)
    (_hstat : d.status = .success) :
    (payment_callback .ok db true (some body)).db =
      updateByOrderId db (successUpdate d body)
    ∧ findByOrderId (updateByOrderId db (successUpdate d body))
        body.razorpay_order_id = some (successUpdate d body)
    ∧ (successUpdate d body).transaction_id = some body.razorpay_payment_id
    ∧ (payment_callback .sigFail db true (some body)).db =
      updateByOrderId db { d with status := .failed }
    ∧ (payment_callback .ok db true (some body)).receiptsSent = []
    ∧ (payment_callback .sigFail db true (some body)).receiptsSent = []
    ∧ (∀ g n e p (q : ℚ) oid, 1 ≤ pyInt q →
        g (pyInt (q * 100)) = .ok oid →
        (donate g db true n e p (some q)).db =
          db ++ [newDonation db n e p q oid]
        ∧ (newDonation db n e p q oid).status = .pending) := by
  refine ⟨?_, ?_, rfl, ?_, ?_, ?_, ?_⟩
  · rw [callback_found_ok hf]
  · exact findByOrderId_update d (successUpdate d body)
      body.razorpay_order_id rfl (findByOrderId_some hf) db hf
  · rw [callback_found_sigFail hf]
  · rw [callback_found_ok hf]
  · rw [callback_found_sigFail hf]
  · intro g n e p q oid hq hg
    rw [donate_post_valid g db n e p q hq oid hg]
    exact ⟨rfl, rfl⟩

theorem c3_amended_witness :
    (payment_callback .ok [d0success] true (some b2)).db =
      updateByOrderId [d0success] (successUpdate d0success b2)
    ∧ (successUpdate d0success b2).transaction_id = some "pay_2"
    ∧ (donate (fun _ => Except.ok "order_C") [d0success] true "Asha"
        "asha@example.com" "9999999999" (some 500)).db =
      [d0success] ++
        [newDonation [d0success] "Asha" "asha@example.com" "9999999999" 500
          "order_C"]
    ∧ (newDonation [d0success] "Asha" "asha@example.com" "9999999999" 500
        "order_C").status = .pending := by
  have h := c3_amended [d0success] d0success b2 rfl rfl
  have hd := h.2.2.2.2.2.2 (fun _ => Except.ok "order_C") "Asha"
    "asha@example.com" "9999999999" 500 "order_C" (by rw [pyInt]; norm_num)
    rfl
  exact ⟨h.1, h.2.2.1, hd.1, hd.2⟩

/-- C10: for every request to `payment_callback` — any method, unparseable
JSON body, any signature-check outcome including an arbitrary raised
exception, and any store contents including an unknown order id — the view
returns a JSON response whose status field is "success", "failed" or
"error"; exceptions inside the handler are caught and routed to the error
response rather than propagated. -/
theorem c10_callback_total_status (sig : SigResult) (db : List Donation)
    (methodPost : Bool) (body : Option CallbackBody) :
    (payment_callback sig db methodPost body).response.statusField
        = "success"
    ∨ (payment_callback sig db methodPost body).response.statusField
        = "failed"
    ∨ (payment_callback sig db methodPost body).response.statusField
        = "error" := by
  cases methodPost with
  | false => simp [payment_callback, CallbackResponse.statusField]
  | true =>
    cases body with
    | none => simp [payment_callback, CallbackResponse.statusField]
    | some data =>
      cases sig with
      | ok =>
        cases hf : findByOrderId db data.razorpay_order_id with
        | none => simp [payment_callback, hf, CallbackResponse.statusField]
        | some d => simp [payment_callback, hf, CallbackResponse.statusField]
      | sigFail =>
        cases hf : findByOrderId db data.razorpay_order_id with
        | none => simp [payment_callback, hf, CallbackResponse.statusField]
        | some d => simp [payment_callback, hf, CallbackResponse.statusField]
      | exn msg => simp [payment_callback, CallbackResponse.statusField]

end Amaanitvam
